import Mathlib

/-!
Verification of the MedAssist multi-provider first-aid AI core.

This file gives a shallow embedding, in Lean 4, of the fallback orchestrator
`generateFirstAidGuidanceUnified` (server/services/ai-service.ts) and of the
three provider adapters (server/services/openai-service.ts,
gemini-service.ts, deepseek-service.ts), restricted to the parts that the
specification's claims are about:

* the credential/preference-driven provider selection and the nested
  try/catch fallback chain of the orchestrator;
* the JSON-path result construction of each adapter;
* the regex-based "extract structured data from text" fallback extractors
  of the three adapters, with a character-level model of the exact
  JavaScript regexes used by the source;
* the error wrapping in each adapter's catch clause;
* the multimodal request-content composition of the OpenAI and DeepSeek
  adapters (system prompt, situation text, medical-history block, audio
  transcript, images).

Network and file-system effects are abstracted as explicit inputs: each
outbound provider call is an oracle `Nat → Provider → Except String _`
(attempt index, provider, outcome), file existence and file contents are
fields of the image/audio inputs, and a transcription call's outcome is an
`Except String String` argument.  JavaScript truthiness, `||` defaulting,
`String.prototype.match/split/replace/trim/toLowerCase` and the specific
regex literals of the source are modelled explicitly on `List Char`.
-/

namespace MedAssist

/-! ## JavaScript string primitives -/

/-- Character class of the JavaScript regex `\s` (also the set stripped by
`String.prototype.trim`): ASCII whitespace plus the Unicode space
characters and line separators recognised by ECMAScript. -/
def jsWhitespace (c : Char) : Bool :=
  c = ' ' || c = '\t' || c = '\n' || c = '\r' || c = '\x0b' || c = '\x0c' ||
  c = '\u00A0' || c = '\u1680' || ('\u2000' ≤ c && c ≤ '\u200A') ||
  c = '\u2028' || c = '\u2029' || c = '\u202F' || c = '\u205F' ||
  c = '\u3000' || c = '\uFEFF'

/-- Characters matched by the JavaScript regex `.` (without the `s` flag):
everything except the four ECMAScript line terminators. -/
def jsDot (c : Char) : Bool :=
  !(c = '\n' || c = '\r' || c = '\u2028' || c = '\u2029')

/-- JS `String.prototype.trim` on a character list. -/
def jsTrim (l : List Char) : List Char :=
  ((l.dropWhile jsWhitespace).reverse.dropWhile jsWhitespace).reverse

/-- JS `String.prototype.toLowerCase` (character-wise). -/
def toLowerL (l : List Char) : List Char := l.map Char.toLower

/-- Case-insensitive character comparison (the `i` regex flag). -/
def lowEq (a b : Char) : Bool := a.toLower = b.toLower

/-- Does `t` start with the pattern `pat`, case-insensitively? -/
def startsWithCI : List Char → List Char → Bool
  | [], _ => true
  | _ :: _, [] => false
  | p :: ps, c :: cs => lowEq p c && startsWithCI ps cs

/-- Length of the maximal run of characters satisfying `p` at the front. -/
def runLen (p : Char → Bool) : List Char → Nat
  | [] => 0
  | c :: cs => if p c then runLen p cs + 1 else 0

/-- Does `t` start with the pattern `pat` (case-sensitively)? -/
def startsWithL : List Char → List Char → Bool
  | [], _ => true
  | _ :: _, [] => false
  | p :: ps, c :: cs => p = c && startsWithL ps cs

/-- Does `pat` occur (case-sensitively) somewhere in the list? -/
def containsLAux (pat : List Char) : List Char → Bool
  | [] => pat.isEmpty
  | c :: cs => startsWithL pat (c :: cs) || containsLAux pat cs

/-- JS `String.prototype.includes` / `indexOf ≥ 0` on character lists. -/
def containsL (hay pat : List Char) : Bool := containsLAux pat hay

/-- JS `hay.includes(pat)` on strings. -/
def containsSub (hay pat : String) : Bool := containsL hay.data pat.data

/-- JS `x || default` for a possibly-absent string (absent, `null` and the
empty string are falsy). -/
def jsOrStr (o : Option String) (d : String) : String :=
  match o with
  | some s => if s = "" then d else s
  | none => d

/-- JS `x || []` for a possibly-absent array (every array, even the empty
one, is truthy; absent/`null` falls back). -/
def jsOrArr (o : Option (List String)) : List String := o.getD []

/-! ## Data model (ai-service.ts lines 6-14)

`AIAssessmentResult` is declared in ai-service.ts with `assessment: string`,
`steps: string[]`, `warnings: string[]` and an optional `severity` whose
`level` is the union `"minor" | "requires_attention" | "emergency"`.
Because the OpenAI adapter materialises such a value by an **unchecked
cast** of `JSON.parse` output (openai-service.ts line 125), the runtime
object can in fact lack any of the declared fields and can carry any
string as `severity.level`; the embedding therefore models the *runtime*
shape, with each field optional and the level a plain string, so that the
declared invariants become provable or refutable statements instead of
being baked into the type. -/

/-- Severity record: `{ level, description }`. -/
structure Severity where
  level : String
  description : String
deriving DecidableEq, Repr

/-- Runtime shape of an assessment result (see the header comment). An
adapter that populates every field returns `some` in every component. -/
structure AIAssessmentResult where
  assessment : Option String
  steps : Option (List String)
  warnings : Option (List String)
  severity : Option Severity
deriving DecidableEq, Repr

/-- A well-formed JSON object response from a provider, after
`JSON.parse`: any subset of the four schema fields may be present. -/
structure ParsedJson where
  assessment : Option String
  steps : Option (List String)
  warnings : Option (List String)
  severity : Option Severity
deriving DecidableEq, Repr

/-- Patient medical history. The interface is imported by
openai-service.ts from "./ai-service"; its declaration file is not part of
the sources, but every field and its optionality is visible from the uses
in openai-service.ts lines 55-79 (`allergies?/medications?/conditions?`
arrays, `bloodType`/`notes` strings, all possibly absent). -/
structure MedicalHistory where
  allergies : Option (List String)
  medications : Option (List String)
  conditions : Option (List String)
  bloodType : Option String
  notes : Option String
deriving DecidableEq, Repr

/-! ## Orchestrator (ai-service.ts lines 24-120) -/

/-- The three AI providers. -/
inductive Provider
  | gemini
  | deepseek
  | openai
deriving DecidableEq, Repr

/-- The provider name as it appears in `PREFERRED_AI_API` comparisons. -/
def providerName : Provider → String
  | .gemini => "gemini"
  | .deepseek => "deepseek"
  | .openai => "openai"

/-- Environment configuration read by the orchestrator: whether each
`*_API_KEY` is set to a truthy (non-empty) value, and the raw
`PREFERRED_AI_API` value if set. -/
structure EnvConfig where
  GEMINI_API_KEY : Bool
  DEEPSEEK_API_KEY : Bool
  OPENAI_API_KEY : Bool
  PREFERRED_AI_API : Option String
deriving DecidableEq, Repr

/-- Credential lookup for a provider. -/
def EnvConfig.keyFor (cfg : EnvConfig) : Provider → Bool
  | .gemini => cfg.GEMINI_API_KEY
  | .deepseek => cfg.DEEPSEEK_API_KEY
  | .openai => cfg.OPENAI_API_KEY

/-- `process.env.PREFERRED_AI_API?.toLowerCase()` (ai-service.ts line 30). -/
def prefOf (cfg : EnvConfig) : Option String :=
  cfg.PREFERRED_AI_API.map (fun s => String.mk (toLowerL s.data))

/-- JS truthiness test `!preferredApi` (undefined or empty string). -/
def prefFalsy : Option String → Bool
  | none => true
  | some s => s = ""

deriving instance DecidableEq for Except

/-- One adapter invocation as performed by the orchestrator.  Every call
site in ai-service.ts (lines 39, 45, 51, 57, 73, 78, 83, 97, 101, 105)
passes exactly `(images, textDescription, audioFilePath)` — three
arguments — so the adapters' optional fourth `medicalHistory` parameter is
always `undefined`, recorded here as `none`. -/
structure AdapterCall where
  provider : Provider
  images : List String
  textDescription : String
  audioFilePath : Option String
  medicalHistory : Option MedicalHistory
deriving DecidableEq, Repr

/-- Outcome of one orchestrator run: the adapter calls actually made, in
order, and the settled promise (`.ok` = resolved, `.error msg` =
rejected with an `Error` carrying `msg`). -/
structure UnifiedOutcome where
  calls : List AdapterCall
  result : Except String AIAssessmentResult
deriving DecidableEq, Repr

/-- Error message of ai-service.ts line 62 (`Promise.reject` — note that a
returned rejected promise is *not* intercepted by the surrounding
`catch`, so this rejection reaches the caller directly). -/
def noServiceMessage : String :=
  "No AI service is available. Please check your API credentials."

/-- Error message of ai-service.ts line 116 (the final aggregate throw). -/
def allUnavailableMessage : String :=
  "All AI services are currently unavailable. Please try again later."

/-- Provider chosen by the primary `try` block (ai-service.ts lines
36-62); `none` means control reaches the line-62 rejection without any
adapter call. -/
def primaryChoice (cfg : EnvConfig) (preferredApi : Option String) : Option Provider :=
  if cfg.GEMINI_API_KEY && (preferredApi == some "gemini" || prefFalsy preferredApi) then
    some .gemini
  else if preferredApi == some "deepseek" ||
      (!cfg.GEMINI_API_KEY && cfg.DEEPSEEK_API_KEY) then
    some .deepseek
  else if preferredApi == some "openai" ||
      (!cfg.GEMINI_API_KEY && !cfg.DEEPSEEK_API_KEY && cfg.OPENAI_API_KEY) then
    some .openai
  else if cfg.GEMINI_API_KEY then
    some .gemini
  else
    none

/-- Provider chosen by the first fallback block (ai-service.ts lines
70-87); `none` means the block throws "First fallback failed..." and
control moves to the second fallback. -/
def fallback1Choice (cfg : EnvConfig) (preferredApi : Option String) : Option Provider :=
  if preferredApi != some "gemini" && cfg.GEMINI_API_KEY then some .gemini
  else if preferredApi != some "deepseek" && cfg.DEEPSEEK_API_KEY then some .deepseek
  else if preferredApi != some "openai" && cfg.OPENAI_API_KEY then some .openai
  else none

/-- Provider chosen by the second fallback block (ai-service.ts lines
94-109); `none` means the block throws "Second fallback failed...". -/
def fallback2Choice (cfg : EnvConfig) (preferredApi : Option String) : Option Provider :=
  if preferredApi != some "openai" && preferredApi != some "gemini" &&
      cfg.OPENAI_API_KEY then some .openai
  else if preferredApi != some "deepseek" && preferredApi != some "gemini" &&
      cfg.DEEPSEEK_API_KEY then some .deepseek
  else if preferredApi != some "openai" && preferredApi != some "deepseek" &&
      cfg.GEMINI_API_KEY then some .gemini
  else none

/-- The unified orchestrator, ai-service.ts lines 24-120.  `oracle n p` is
the outcome of the `(n+1)`-th outbound adapter invocation, made against
provider `p` (success with a result, or a thrown error message).  The
returned `UnifiedOutcome` records the adapter calls in the order they were
awaited, together with the settled promise. -/
def generateFirstAidGuidanceUnified (cfg : EnvConfig)
    (images : List String) (textDescription : String)
    (audioFilePath : Option String)
    (oracle : Nat → Provider → Except String AIAssessmentResult) :
    UnifiedOutcome :=
  let preferredApi := prefOf cfg
  let call := fun (p : Provider) =>
    AdapterCall.mk p images textDescription audioFilePath none
  match primaryChoice cfg preferredApi with
  | none => ⟨[], .error noServiceMessage⟩
  | some p0 =>
    match oracle 0 p0 with
    | .ok r => ⟨[call p0], .ok r⟩
    | .error _ =>
      match fallback1Choice cfg preferredApi with
      | some p1 =>
        match oracle 1 p1 with
        | .ok r => ⟨[call p0, call p1], .ok r⟩
        | .error _ =>
          match fallback2Choice cfg preferredApi with
          | some p2 =>
            match oracle 2 p2 with
            | .ok r => ⟨[call p0, call p1, call p2], .ok r⟩
            | .error _ => ⟨[call p0, call p1, call p2], .error allUnavailableMessage⟩
          | none => ⟨[call p0, call p1], .error allUnavailableMessage⟩
      | none =>
        match fallback2Choice cfg preferredApi with
        | some p2 =>
          match oracle 1 p2 with
          | .ok r => ⟨[call p0, call p2], .ok r⟩
          | .error _ => ⟨[call p0, call p2], .error allUnavailableMessage⟩
        | none => ⟨[call p0], .error allUnavailableMessage⟩

/-- An oracle on which every provider attempt fails. -/
def failOracle (msg : String) : Nat → Provider → Except String AIAssessmentResult :=
  fun _ _ => .error msg

/-- The providers attempted by one orchestrator run, in order. -/
def attemptsOf (o : UnifiedOutcome) : List Provider :=
  o.calls.map (fun c => c.provider)

/-- Attempt order the orchestrator actually produces when
`PREFERRED_AI_API` is unset, for credentials `(g, d, o)`, when every
attempt fails: the first configured provider in Gemini → DeepSeek →
OpenAI order is attempted, then (because the fallback blocks only exclude
the *named preference*, which is unset) that same first provider is
attempted a second time, and finally the first configured provider in
OpenAI → DeepSeek → Gemini order. -/
def defaultOrderTrace (g d o : Bool) : List Provider :=
  if g then
    [.gemini, .gemini] ++ (if o then [.openai] else if d then [.deepseek] else [.gemini])
  else if d then
    [.deepseek, .deepseek] ++ (if o then [.openai] else [.deepseek])
  else if o then [.openai, .openai, .openai]
  else []

/-! ## Adapter JSON paths

Each adapter asks its provider for JSON output, `JSON.parse`s the body
and turns it into an `AIAssessmentResult`.  The three adapters do this
differently:

* OpenAI (openai-service.ts line 125): `JSON.parse(responseContent) as
  AIAssessmentResult` — an unchecked cast, no defaulting at all;
* Gemini (gemini-service.ts lines 117-121): explicit `||` defaults for
  `assessment`, `steps`, `warnings`; the built object has no `severity`
  property;
* DeepSeek (deepseek-service.ts lines 119-127): explicit `||` defaults
  for all four fields, including a default `severity`.
-/

/-- OpenAI JSON path (openai-service.ts line 125): the parsed object is
returned unchanged — whatever fields the provider omitted stay absent. -/
def openaiParseJsonResponse (j : ParsedJson) : AIAssessmentResult :=
  ⟨j.assessment, j.steps, j.warnings, j.severity⟩

/-- Gemini JSON path (gemini-service.ts lines 117-121). -/
def geminiParseJsonResponse (j : ParsedJson) : AIAssessmentResult :=
  ⟨some (jsOrStr j.assessment "Unable to provide assessment with given information."),
   some (jsOrArr j.steps),
   some (jsOrArr j.warnings),
   none⟩

/-- DeepSeek JSON path (deepseek-service.ts lines 119-127): `severity:
parsedResponse.severity || default` — a *present* severity object is
passed through unvalidated. -/
def deepseekParseJsonResponse (j : ParsedJson) : AIAssessmentResult :=
  ⟨some (jsOrStr j.assessment "Unable to provide assessment with given information."),
   some (jsOrArr j.steps),
   some (jsOrArr j.warnings),
   some (j.severity.getD
     ⟨"requires_attention",
      "Unable to determine severity level from provided information. Seeking medical advice is recommended as a precaution."⟩)⟩

/-! ## Adapter catch clauses -/

/-- The error value inspected by an adapter's catch clause:
`error.message` (possibly absent) and, for the axios-based adapters,
`error?.response?.status`. -/
structure JsError where
  message : Option String
  status : Option Nat
deriving DecidableEq, Repr

/-- Dedicated Gemini unavailability message (gemini-service.ts line 133). -/
def geminiUnavailableMessage : String :=
  "Gemini API service unavailable. Please try again later or contact support to update API credentials."

/-- Dedicated DeepSeek unavailability message (deepseek-service.ts line 139). -/
def deepseekUnavailableMessage : String :=
  "DeepSeek API service unavailable. Please try again later or contact support to update API credentials."

/-- Message of the error thrown by the Gemini adapter's catch clause
(gemini-service.ts lines 128-137): HTTP 429/401 gets the dedicated
unavailability error, everything else the generic wrapper. -/
def geminiCatch (e : JsError) : String :=
  if e.status == some 429 || e.status == some 401 then
    geminiUnavailableMessage
  else
    "Failed to generate first aid guidance: " ++ jsOrStr e.message "Unknown error"

/-- Message of the error thrown by the DeepSeek adapter's catch clause
(deepseek-service.ts lines 134-143). -/
def deepseekCatch (e : JsError) : String :=
  if e.status == some 429 || e.status == some 401 then
    deepseekUnavailableMessage
  else
    "Failed to generate first aid guidance: " ++ jsOrStr e.message "Unknown error"

/-- Message of the error thrown by the OpenAI adapter's catch clause
(openai-service.ts lines 130-133): every failure — HTTP 401/429
included — is wrapped the same way; there is no status inspection. -/
def openaiCatch (e : JsError) : String :=
  "OpenAI Service Error: " ++ jsOrStr e.message "Unknown error"

/-! ## Transcription fallbacks -/

/-- `transcribeAudioWithOpenAI` (openai-service.ts lines 141-155): the
Whisper call's outcome is the argument; a thrown error is caught and the
empty string returned "to allow the process to continue". -/
def transcribeAudioWithOpenAI : Except String String → String
  | .ok t => t
  | .error _ => ""

/-- `transcribeAudioWithDeepSeek` (deepseek-service.ts lines 151-174):
same catch-and-return-empty behaviour. -/
def transcribeAudioWithDeepSeek : Except String String → String
  | .ok t => t
  | .error _ => ""

/-! ## Request-content composition -/

/-- An image input: its path, whether `fs.existsSync` finds it, and the
base64 encoding of its bytes. -/
structure ImageInput where
  path : String
  onDisk : Bool
  base64 : String
deriving DecidableEq, Repr

/-- One item of the OpenAI multimodal `content` array. -/
inductive ContentItem
  | text (s : String)
  | imageUrl (s : String)
deriving DecidableEq, Repr

/-- The text carried by a content item. -/
def ContentItem.textOf : ContentItem → String
  | .text s => s
  | .imageUrl s => s

/-- The system instruction pushed first by the OpenAI adapter
(openai-service.ts lines 27-46). -/
def openaiSystemPrompt : String :=
  "You are a medical first aid assistant. \n      Analyze the provided information (images, text description, and/or audio transcription) \n      and provide first aid guidance with severity assessment. Structure your response as a JSON object with the following properties:\n      \x7b\n        \"assessment\": \"Brief description of the injury or condition based on the provided inputs\",\n        \"steps\": [\"Step 1 of first aid treatment\", \"Step 2\", \"...\"],\n        \"warnings\": [\"Important warning or caution\", \"...\"],\n        \"severity\": \x7b\n          \"level\": \"minor\" | \"requires_attention\" | \"emergency\",\n          \"description\": \"Explanation of why this severity level was assigned\"\n        \x7d\n      \x7d\n      \n      For severity levels, use these guidelines:\n      - \"minor\": Injuries that can be safely treated at home (cuts, scrapes, minor burns, etc.)\n      - \"requires_attention\": Conditions that need medical care soon but are not immediately life-threatening\n      - \"emergency\": Conditions requiring immediate emergency medical services (severe bleeding, loss of consciousness, chest pain, etc.)"

/-- The system message of the DeepSeek adapter (deepseek-service.ts lines
37-60). -/
def deepseekSystemPrompt : String :=
  "You are a first aid expert. Analyze the provided information about an injury or medical condition and provide:\n        1. A clear assessment of the situation\n        2. Step-by-step first aid instructions\n        3. Warning signs that would indicate the need to seek professional medical attention\n        4. Severity assessment of the condition\n\n        Format your response as a JSON object with the following structure:\n        \x7b\n          \"assessment\": \"your assessment of the situation\",\n          \"steps\": [\"step 1\", \"step 2\", \"step 3\", ...],\n          \"warnings\": [\"warning 1\", \"warning 2\", \"warning 3\", ...],\n          \"severity\": \x7b\n            \"level\": \"minor\" | \"requires_attention\" | \"emergency\",\n            \"description\": \"explanation of why this severity level was assigned\"\n          \x7d\n        \x7d\n        \n        For severity levels:\n        - \"minor\": Injuries that can be safely treated at home (cuts, scrapes, minor burns, etc.)\n        - \"requires_attention\": Conditions that need medical care soon but are not immediately life-threatening\n        - \"emergency\": Conditions requiring immediate emergency medical services (severe bleeding, loss of consciousness, chest pain, etc.)"

/-- JS truthiness of `xs?.length` for a possibly-absent array. -/
def jsLenTruthy : Option (List String) → Bool
  | some l => decide (l.length ≠ 0)
  | none => false

/-- JS truthiness of a possibly-absent string. -/
def jsStrTruthy : Option String → Bool
  | some s => decide (s ≠ "")
  | none => false

/-- The medical-history context text composed by the OpenAI adapter
(openai-service.ts lines 55-79): labelled lines for allergies,
medications, conditions, blood type and notes, each with an explicit
fallback phrase (or the empty string for the two optional scalars),
joined into the `PATIENT MEDICAL HISTORY` block. -/
def medicalHistoryContextText (mh : MedicalHistory) : String :=
  let allergiesText :=
    if jsLenTruthy mh.allergies then
      "Allergies: " ++ String.intercalate ", " (mh.allergies.getD [])
    else "No known allergies"
  let medicationsText :=
    if jsLenTruthy mh.medications then
      "Current medications: " ++ String.intercalate ", " (mh.medications.getD [])
    else "No current medications"
  let conditionsText :=
    if jsLenTruthy mh.conditions then
      "Medical conditions: " ++ String.intercalate ", " (mh.conditions.getD [])
    else "No chronic medical conditions"
  let bloodTypeText :=
    if jsStrTruthy mh.bloodType then "Blood type: " ++ mh.bloodType.getD ""
    else ""
  let notesText :=
    if jsStrTruthy mh.notes then "Additional medical notes: " ++ mh.notes.getD ""
    else ""
  "PATIENT MEDICAL HISTORY (IMPORTANT - Consider for treatment recommendations):\n" ++
    allergiesText ++ "\n" ++ medicationsText ++ "\n" ++ conditionsText ++ "\n" ++
    bloodTypeText ++ "\n" ++ notesText ++
    "\n\nPlease tailor your first aid guidance taking into account these medical conditions, allergies, and medications. Warn about any potential complications based on the patient's medical history."

/-- The `content` array assembled by `generateFirstAidGuidanceWithOpenAI`
(openai-service.ts lines 22-103): system prompt, situation description,
optional medical-history block, optional audio transcript (pushed whenever
the audio file exists, even when the transcript is empty), then one
image-url item per existing image file.  `transcriptionOutcome` is the
outcome of the Whisper call, consumed through the catch-to-empty-string
wrapper. -/
def openaiBuildContent (images : List ImageInput) (textDescription : String)
    (audioFilePath : Option String) (audioOnDisk : Bool)
    (medicalHistory : Option MedicalHistory)
    (transcriptionOutcome : Except String String) : List ContentItem :=
  [ContentItem.text openaiSystemPrompt,
   ContentItem.text ("Situation description: " ++ textDescription)] ++
  (match medicalHistory with
   | some mh => [ContentItem.text (medicalHistoryContextText mh)]
   | none => []) ++
  (match audioFilePath with
   | some _ =>
     if audioOnDisk then
       [ContentItem.text ("Additional voice information: " ++
         transcribeAudioWithOpenAI transcriptionOutcome)]
     else []
   | none => []) ++
  images.filterMap (fun img =>
    if img.onDisk then
      some (ContentItem.imageUrl ("data:image/jpeg;base64," ++ img.base64))
    else none)

/-- One message of the DeepSeek `messages` array. -/
inductive DeepSeekMessage
  | system (content : String)
  | userText (content : String)
  | userImage (text : String) (imageUrl : String)
deriving DecidableEq, Repr

/-- The `messages` array assembled by
`generateFirstAidGuidanceWithDeepSeek` (deepseek-service.ts lines 21-91):
system prompt, then — when the combined text/voice description is
non-empty — one user text message, then one user image message per image.
The transcript comes from `transcribeAudioWithDeepSeek`, which catches
transcription errors and yields the empty string. -/
def deepseekBuildMessages (images : List ImageInput) (textDescription : String)
    (audioFilePath : Option String)
    (transcriptionOutcome : Except String String) : List DeepSeekMessage :=
  let audioTranscription :=
    match audioFilePath with
    | some _ => transcribeAudioWithDeepSeek transcriptionOutcome
    | none => ""
  let combinedText :=
    String.intercalate "\n\n"
      (([if textDescription ≠ "" then "Text Description: " ++ textDescription else "",
         if audioTranscription ≠ "" then "Voice Description: " ++ audioTranscription else ""]).filter
        (fun s => s ≠ ""))
  [DeepSeekMessage.system deepseekSystemPrompt] ++
  (if combinedText ≠ "" then [DeepSeekMessage.userText combinedText] else []) ++
  images.map (fun img =>
    DeepSeekMessage.userImage
      "Please analyze this image of the injury/condition and provide appropriate first aid guidance."
      ("data:image/jpeg;base64," ++ img.base64))

/-! ## Regex machinery

The extractors use a handful of JavaScript regex shapes.  Each shape is
modelled as a character-level matcher that reproduces the ECMAScript
backtracking order (leftmost start position; greedy quantifiers try the
longest consumption first, lazy ones the shortest; alternations try
alternatives left to right).  `String.prototype.match` without the `g`
flag returns the first match; the functions below return the text of the
first capture group of that first match (`none` = no match).
-/

/-- Leftmost-match scan: try the matcher at every start position. -/
def scanFirst (f : List Char → Option (List Char)) : List Char → Option (List Char)
  | [] => f []
  | c :: cs =>
    match f (c :: cs) with
    | some r => some r
    | none => scanFirst f cs

/-- Character class `[:\s]`. -/
def classColonWs (c : Char) : Bool := c = ':' || jsWhitespace c

/-- Backtracking for `[:\s]+([^\n]+)` after the label: try consuming `m`
class characters (largest first, at least one); the capture is the
greedy, non-empty run of non-newline characters that follows. -/
def matchABack (rest : List Char) : Nat → Option (List Char)
  | 0 => none
  | m + 1 =>
    match rest.drop (m + 1) with
    | c :: cs =>
      if c = '\n' then matchABack rest m
      else some ((c :: cs).takeWhile (fun x => x ≠ '\n'))
    | [] => matchABack rest m

/-- Matcher for `/LABEL[:\s]+([^\n]+)/i` anchored at the current
position. -/
def matchAAt (label : List Char) (t : List Char) : Option (List Char) :=
  if startsWithCI label t then
    let rest := t.drop label.length
    matchABack rest (runLen classColonWs rest)
  else none

/-- Lazy growth of `[\s\S]+?` up to the first position where one of the
lookahead alternatives (or end of input — the `$` alternative) matches. -/
def lazyTakeAux (alts : List (List Char)) : List Char → List Char
  | [] => []
  | c :: cs =>
    if alts.any (fun a => startsWithCI a (c :: cs)) then []
    else c :: lazyTakeAux alts cs

/-- Matcher for `/LABEL[:\s]+([\s\S]+?)(?=ALT1|…|$)/i` anchored at the
current position.  Because `$` always holds at the end of input, the
greedy class run only ever backtracks by one character, when it ran to
the very end of the input (the lazy group still needs one character). -/
def matchBAt (label : List Char) (alts : List (List Char)) (t : List Char) :
    Option (List Char) :=
  if startsWithCI label t then
    let rest := t.drop label.length
    let K := runLen classColonWs rest
    if K = 0 then none
    else
      match rest.drop K with
      | c :: cs => some (c :: lazyTakeAux alts cs)
      | [] =>
        if K ≥ 2 then
          match rest.drop (K - 1) with
          | c :: cs => some (c :: lazyTakeAux alts cs)
          | [] => none
        else none
  else none

/-- Lazy growth of `(.*?)` (dot excludes line terminators) up to the
first position where an alternative or the end of input matches; `none`
when a line terminator blocks the group before any such position. -/
def lazyDotTake (alts : List (List Char)) : List Char → Option (List Char)
  | [] => some []
  | c :: cs =>
    if alts.any (fun a => startsWithCI a (c :: cs)) then some []
    else if jsDot c then (lazyDotTake alts cs).map (fun l => c :: l)
    else none

/-- Backtracking for `\s*(.*?)(?=…|$)`: try consuming `w` whitespace
characters, largest first, down to zero. -/
def matchDWs (alts : List (List Char)) (rest : List Char) : Nat → Option (List Char)
  | 0 => lazyDotTake alts rest
  | w + 1 =>
    match lazyDotTake alts (rest.drop (w + 1)) with
    | some cap => some cap
    | none => matchDWs alts rest w

/-- Matcher for `/LABEL:?\s*(.*?)(?=ALT1|…|$)/i` anchored at the current
position (`:?` prefers to consume a colon, backtracking to the empty
match). -/
def matchDAt (label : List Char) (alts : List (List Char)) (t : List Char) :
    Option (List Char) :=
  if startsWithCI label t then
    let rest := t.drop label.length
    match rest with
    | ':' :: rest2 =>
      (match matchDWs alts rest2 (runLen jsWhitespace rest2) with
       | some cap => some cap
       | none => matchDWs alts rest (runLen jsWhitespace rest))
    | _ => matchDWs alts rest (runLen jsWhitespace rest)
  else none

/-- Greedy capture `([^"\n]+)` (the trailing `"?` of the pattern imposes
no constraint). -/
def matchECap (t : List Char) : Option (List Char) :=
  let cap := t.takeWhile (fun c => c ≠ '"' && c ≠ '\n')
  if cap.isEmpty then none else some cap

/-- `"?([^"\n]+)"?`: prefer consuming an opening quote. -/
def matchEQ (t : List Char) : Option (List Char) :=
  match t with
  | '"' :: rest =>
    (match matchECap rest with
     | some cap => some cap
     | none => matchECap t)
  | _ => matchECap t

/-- `\s*"?([^"\n]+)"?` with greedy whitespace backtracking. -/
def matchEWs (t : List Char) : Nat → Option (List Char)
  | 0 => matchEQ t
  | w + 1 =>
    match matchEQ (t.drop (w + 1)) with
    | some cap => some cap
    | none => matchEWs t w

/-- `MID:?\s*"?([^"\n]+)"?` anchored at the current position. -/
def matchETail (mid : List Char) (t : List Char) : Option (List Char) :=
  if startsWithCI mid t then
    let rest := t.drop mid.length
    match rest with
    | ':' :: rest2 =>
      (match matchEWs rest2 (runLen jsWhitespace rest2) with
       | some cap => some cap
       | none => matchEWs rest (runLen jsWhitespace rest))
    | _ => matchEWs rest (runLen jsWhitespace rest)
  else none

/-- Backtracking for the greedy `[^:]*` between label and `MID`: try the
longest non-colon run first, giving back one character at a time. -/
def matchEMidBack (mid rest : List Char) : Nat → Option (List Char)
  | 0 => matchETail mid rest
  | n + 1 =>
    match matchETail mid (rest.drop (n + 1)) with
    | some cap => some cap
    | none => matchEMidBack mid rest n

/-- Matcher for `/LABEL:?[^:]*MID:?\s*"?([^"\n]+)"?/i` anchored at the
current position (DeepSeek's severity level/description patterns). -/
def matchEAt (label mid : List Char) (t : List Char) : Option (List Char) :=
  if startsWithCI label t then
    let rest := t.drop label.length
    match rest with
    | ':' :: rest2 =>
      (match matchEMidBack mid rest2 (runLen (fun c => c ≠ ':') rest2) with
       | some cap => some cap
       | none => matchEMidBack mid rest (runLen (fun c => c ≠ ':') rest))
    | _ => matchEMidBack mid rest (runLen (fun c => c ≠ ':') rest)
  else none

/-- `MID[:\s]+([^\n]+)` anchored at the current position. -/
def matchFTail (mid : List Char) (t : List Char) : Option (List Char) :=
  if startsWithCI mid t then
    let rest := t.drop mid.length
    matchABack rest (runLen classColonWs rest)
  else none

/-- Backtracking for the greedy `[^:]*` of the pattern below. -/
def matchFMidBack (mid rest : List Char) : Nat → Option (List Char)
  | 0 => matchFTail mid rest
  | n + 1 =>
    match matchFTail mid (rest.drop (n + 1)) with
    | some cap => some cap
    | none => matchFMidBack mid rest n

/-- Matcher for `/LABEL[^:]*MID[:\s]+([^\n]+)/i` anchored at the current
position (OpenAI's `severity[^:]*description` pattern — note there is no
`:?` after the label, so a colon directly after `LABEL` blocks it). -/
def matchFAt (label mid : List Char) (t : List Char) : Option (List Char) :=
  if startsWithCI label t then
    let rest := t.drop label.length
    matchFMidBack mid rest (runLen (fun c => c ≠ ':') rest)
  else none

/-! ## Split / replace helpers -/

/-- JS `str.split(re)` where `re` matches maximal runs of characters
satisfying `p` (used for `/\n+/`): state machine over the characters,
`sep = true` while consuming a separator run. -/
def splitRunsGo (p : Char → Bool) : Bool → List Char → List Char → List (List Char)
  | sep, cur, [] => if sep then [[]] else [cur.reverse]
  | false, cur, c :: cs =>
    if p c then cur.reverse :: splitRunsGo p true [] cs
    else splitRunsGo p false (c :: cur) cs
  | true, _, c :: cs =>
    if p c then splitRunsGo p true [] cs
    else splitRunsGo p false [c] cs

/-- JS `str.split(/\n+/)`-style splitting. -/
def splitRuns (p : Char → Bool) (l : List Char) : List (List Char) :=
  splitRunsGo p false [] l

/-- Match of `\d+\.\s+` at the current position: its length, or `none`. -/
def matchNumDotMarker (t : List Char) : Option Nat :=
  let ds := runLen Char.isDigit t
  if ds = 0 then none
  else
    match t.drop ds with
    | '.' :: rest =>
      let s := runLen jsWhitespace rest
      if s = 0 then none else some (ds + 1 + s)
    | _ => none

/-- Match of `\*\s+` or `-\s+` at the current position. -/
def matchBulletMarker (t : List Char) : Option Nat :=
  match t with
  | '*' :: rest =>
    let s := runLen jsWhitespace rest
    if s = 0 then none else some (1 + s)
  | '-' :: rest =>
    let s := runLen jsWhitespace rest
    if s = 0 then none else some (1 + s)
  | _ => none

/-- The split regex `/\d+\.\s+/` of the Gemini/DeepSeek steps split. -/
def stepsSplitMarker (t : List Char) : Option Nat := matchNumDotMarker t

/-- The split regex `/\d+\.\s+|\*\s+|-\s+/` of the warnings split. -/
def warningsSplitMarker (t : List Char) : Option Nat :=
  match matchNumDotMarker t with
  | some n => some n
  | none => matchBulletMarker t

/-- JS `str.split(re)` for a marker regex that never matches the empty
string: scan left to right, cutting at each match (fuelled recursion; the
fuel `l.length + 1` is always sufficient because every marker match
consumes at least one character). -/
def splitOnMarkerGo (m : List Char → Option Nat) : Nat → List Char → List Char → List (List Char)
  | _, cur, [] => [cur.reverse]
  | 0, cur, rest => [cur.reverse ++ rest]
  | fuel + 1, cur, c :: cs =>
    match m (c :: cs) with
    | some n => cur.reverse :: splitOnMarkerGo m fuel [] ((c :: cs).drop n)
    | none => splitOnMarkerGo m fuel (c :: cur) cs

/-- JS `str.split(marker)`. -/
def splitOnMarker (m : List Char → Option Nat) (l : List Char) : List (List Char) :=
  splitOnMarkerGo m (l.length + 1) [] l

/-- Character class of `/^[0-9#\-*.\s]+/` (OpenAI's leading list-marker
strip). -/
def stepLeadChar (c : Char) : Bool :=
  c.isDigit || c = '#' || c = '-' || c = '*' || c = '.' || jsWhitespace c

/-- JS `step.replace(/^[0-9#\-*.\s]+/, '')`. -/
def stripStepLead (l : List Char) : List Char := l.dropWhile stepLeadChar

/-! ## Gemini text extractor (gemini-service.ts lines 145-181) -/

/-- `text.match(new RegExp("assessment:?\\s*(.*?)(?=steps:|warnings:|$)", "i"))`. -/
def geminiAssessmentMatch (t : List Char) : Option (List Char) :=
  scanFirst (matchDAt "assessment".data ["steps:".data, "warnings:".data]) t

/-- `text.match(new RegExp("steps:?\\s*(.*?)(?=warnings:|$)", "i"))`. -/
def geminiStepsMatch (t : List Char) : Option (List Char) :=
  scanFirst (matchDAt "steps".data ["warnings:".data]) t

/-- `text.match(new RegExp("warnings:?\\s*(.*?)(?=$)", "i"))`. -/
def geminiWarningsMatch (t : List Char) : Option (List Char) :=
  scanFirst (matchDAt "warnings".data []) t

/-- Gemini `result.assessment` (default `""`; a match with a truthy
capture is trimmed and assigned). -/
def geminiAssessmentField (t : List Char) : String :=
  match geminiAssessmentMatch t with
  | some cap => if cap.isEmpty then "" else String.mk (jsTrim cap)
  | none => ""

/-- Gemini `result.steps` (default `[]`; split on `/\d+\.\s+/`, drop
falsy pieces, trim). -/
def geminiStepsField (t : List Char) : List String :=
  match geminiStepsMatch t with
  | some cap =>
    if cap.isEmpty then []
    else ((splitOnMarker stepsSplitMarker cap).filter (fun p => !p.isEmpty)).map
      (fun p => String.mk (jsTrim p))
  | none => []

/-- Gemini `result.warnings` (default `[]`; split on
`/\d+\.\s+|\*\s+|-\s+/`, drop falsy pieces, trim). -/
def geminiWarningsField (t : List Char) : List String :=
  match geminiWarningsMatch t with
  | some cap =>
    if cap.isEmpty then []
    else ((splitOnMarker warningsSplitMarker cap).filter (fun p => !p.isEmpty)).map
      (fun p => String.mk (jsTrim p))
  | none => []

/-- Gemini `extractStructuredDataFromText`: defaults are the empty
assessment, no steps, no warnings; the built object has no severity. -/
def extractStructuredDataFromTextGemini (text : String) : AIAssessmentResult :=
  ⟨some (geminiAssessmentField text.data),
   some (geminiStepsField text.data),
   some (geminiWarningsField text.data),
   none⟩

/-! ## DeepSeek text extractor (deepseek-service.ts lines 181-252) -/

/-- Same assessment pattern as Gemini's. -/
def deepseekAssessmentMatch (t : List Char) : Option (List Char) :=
  scanFirst (matchDAt "assessment".data ["steps:".data, "warnings:".data]) t

/-- Same steps pattern as Gemini's. -/
def deepseekStepsMatch (t : List Char) : Option (List Char) :=
  scanFirst (matchDAt "steps".data ["warnings:".data]) t

/-- `text.match(new RegExp("warnings:?\\s*(.*?)(?=severity:|$)", "i"))`. -/
def deepseekWarningsMatch (t : List Char) : Option (List Char) :=
  scanFirst (matchDAt "warnings".data ["severity:".data]) t

/-- `text.match(new RegExp("severity:?[^:]*level:?\\s*\"?([^\"\\n]+)\"?", "i"))`. -/
def deepseekLevelMatch (t : List Char) : Option (List Char) :=
  scanFirst (matchEAt "severity".data "level".data) t

/-- `text.match(new RegExp("severity:?[^:]*description:?\\s*\"?([^\"\\n]+)\"?", "i"))`. -/
def deepseekDescMatch (t : List Char) : Option (List Char) :=
  scanFirst (matchEAt "severity".data "description".data) t

/-- DeepSeek's default severity object. -/
def deepseekDefaultSeverity : Severity :=
  ⟨"requires_attention",
   "Unable to determine severity from the response. Seeking medical advice is recommended as a precaution."⟩

/-- DeepSeek `result.assessment`. -/
def deepseekAssessmentField (t : List Char) : String :=
  match deepseekAssessmentMatch t with
  | some cap => if cap.isEmpty then "" else String.mk (jsTrim cap)
  | none => ""

/-- DeepSeek `result.steps`. -/
def deepseekStepsField (t : List Char) : List String :=
  match deepseekStepsMatch t with
  | some cap =>
    if cap.isEmpty then []
    else ((splitOnMarker stepsSplitMarker cap).filter (fun p => !p.isEmpty)).map
      (fun p => String.mk (jsTrim p))
  | none => []

/-- DeepSeek `result.warnings`. -/
def deepseekWarningsField (t : List Char) : List String :=
  match deepseekWarningsMatch t with
  | some cap =>
    if cap.isEmpty then []
    else ((splitOnMarker warningsSplitMarker cap).filter (fun p => !p.isEmpty)).map
      (fun p => String.mk (jsTrim p))
  | none => []

/-- DeepSeek `result.severity`: the matched level text is lowercased,
trimmed and tested with `includes` against `minor`, the three attention
variants, and `emergency`; each branch keeps the already-present default
description (`result.severity?.description || …` — the default is truthy,
so the branch literals are dead); an unmatched text keeps the default
object; a later description match overwrites the description only. -/
def deepseekSeverityLevelPart (t : List Char) : Severity :=
  match deepseekLevelMatch t with
  | some cap =>
    if cap.isEmpty then deepseekDefaultSeverity
    else
      let levelText := jsTrim (toLowerL cap)
      if containsL levelText "minor".data then
        ⟨"minor",
         jsOrStr (some deepseekDefaultSeverity.description)
           "This condition can be safely treated at home with basic first aid."⟩
      else if containsL levelText "requires_attention".data ||
          containsL levelText "requires attention".data ||
          containsL levelText "attention".data then
        ⟨"requires_attention",
         jsOrStr (some deepseekDefaultSeverity.description)
           "This condition needs medical attention, but is not immediately life-threatening."⟩
      else if containsL levelText "emergency".data then
        ⟨"emergency",
         jsOrStr (some deepseekDefaultSeverity.description)
           "This is a medical emergency requiring immediate professional medical care."⟩
      else deepseekDefaultSeverity
  | none => deepseekDefaultSeverity

/-- DeepSeek `result.severity` after the description pass: a later
description match overwrites the description only. -/
def deepseekSeverityField (t : List Char) : Severity :=
  match deepseekDescMatch t with
  | some cap =>
    if cap.isEmpty then deepseekSeverityLevelPart t
    else ⟨(deepseekSeverityLevelPart t).level, String.mk (jsTrim cap)⟩
  | none => deepseekSeverityLevelPart t

/-- DeepSeek `extractStructuredDataFromText`. -/
def extractStructuredDataFromTextDeepSeek (text : String) : AIAssessmentResult :=
  ⟨some (deepseekAssessmentField text.data),
   some (deepseekStepsField text.data),
   some (deepseekWarningsField text.data),
   some (deepseekSeverityField text.data)⟩

/-! ## OpenAI text extractor (openai-service.ts lines 162-243) -/

/-- `text.match(/assessment[:\s]+([^\n]+)/i) ||
text.match(/situation[:\s]+([^\n]+)/i) ||
text.match(/condition[:\s]+([^\n]+)/i)`. -/
def openaiAssessmentMatch (t : List Char) : Option (List Char) :=
  match scanFirst (matchAAt "assessment".data) t with
  | some r => some r
  | none =>
    match scanFirst (matchAAt "situation".data) t with
    | some r => some r
    | none => scanFirst (matchAAt "condition".data) t

/-- `text.match(/steps[:\s]+([\s\S]+?)(?=warnings|$)/i)`. -/
def openaiStepsMatch (t : List Char) : Option (List Char) :=
  scanFirst (matchBAt "steps".data ["warnings".data]) t

/-- `text.match(/warnings[:\s]+([\s\S]+?)(?=\n\n|severity|$)/i)`. -/
def openaiWarningsMatch (t : List Char) : Option (List Char) :=
  scanFirst (matchBAt "warnings".data ["\n\n".data, "severity".data]) t

/-- `text.match(/severity[:\s]+([^\n]+)/i) || text.match(/level[:\s]+([^\n]+)/i)`. -/
def openaiSeverityMatch (t : List Char) : Option (List Char) :=
  match scanFirst (matchAAt "severity".data) t with
  | some r => some r
  | none => scanFirst (matchAAt "level".data) t

/-- `text.match(/severity[^:]*description[:\s]+([^\n]+)/i) ||
text.match(/description[:\s]+([^\n]+)/i)`. -/
def openaiSeverityDescMatch (t : List Char) : Option (List Char) :=
  match scanFirst (matchFAt "severity".data "description".data) t with
  | some r => some r
  | none => scanFirst (matchAAt "description".data) t

/-- OpenAI's default (generic fallback) assessment text. -/
def openaiDefaultAssessment : String :=
  "Unable to parse response properly. Please try again."

/-- OpenAI's default (generic fallback) warnings list. -/
def openaiDefaultWarnings : List String :=
  ["The system encountered an issue processing the response."]

/-- OpenAI's default severity object. -/
def openaiDefaultSeverity : Severity :=
  ⟨"requires_attention",
   "Unable to determine severity from the response. Seeking medical advice is recommended as a precaution."⟩

/-- OpenAI `result.assessment`. -/
def openaiAssessmentField (t : List Char) : String :=
  match openaiAssessmentMatch t with
  | some cap => if cap.isEmpty then openaiDefaultAssessment else String.mk (jsTrim cap)
  | none => openaiDefaultAssessment

/-- OpenAI `result.steps`: trim the capture, split on `/\n+/`, strip
leading list markers from each line, trim, drop falsy lines; an empty
result keeps the default `[]`. -/
def openaiStepsField (t : List Char) : List String :=
  match openaiStepsMatch t with
  | some cap =>
    if cap.isEmpty then []
    else
      let steps := ((splitRuns (fun c => c = '\n') (jsTrim cap)).map
        (fun s => jsTrim (stripStepLead s))).filter (fun s => !s.isEmpty)
      if steps.length > 0 then steps.map String.mk else []
  | none => []

/-- OpenAI `result.warnings`: same line-based splitting; an empty result
keeps the default generic warning. -/
def openaiWarningsField (t : List Char) : List String :=
  match openaiWarningsMatch t with
  | some cap =>
    if cap.isEmpty then openaiDefaultWarnings
    else
      let warnings := ((splitRuns (fun c => c = '\n') (jsTrim cap)).map
        (fun s => jsTrim (stripStepLead s))).filter (fun s => !s.isEmpty)
      if warnings.length > 0 then warnings.map String.mk else openaiDefaultWarnings
  | none => openaiDefaultWarnings

/-- OpenAI `result.severity`: the matched text is lowercased and trimmed,
then tested with `includes` against `minor`, the attention variants
(OpenAI uses `medical attention`, not the bare `attention`), and
`emergency`; unmatched text keeps the default; a description match
overwrites the description only. -/
def openaiSeverityLevelPart (t : List Char) : Severity :=
  match openaiSeverityMatch t with
  | some cap =>
    if cap.isEmpty then openaiDefaultSeverity
    else
      let severityText := jsTrim (toLowerL cap)
      if containsL severityText "minor".data then
        ⟨"minor", "This condition can be safely treated at home with basic first aid."⟩
      else if containsL severityText "requires_attention".data ||
          containsL severityText "requires attention".data ||
          containsL severityText "medical attention".data then
        ⟨"requires_attention",
         "This condition needs medical attention, but is not immediately life-threatening."⟩
      else if containsL severityText "emergency".data then
        ⟨"emergency", "This is a medical emergency requiring immediate professional medical care."⟩
      else openaiDefaultSeverity
  | none => openaiDefaultSeverity

/-- OpenAI `result.severity` after the description pass: a description
match overwrites the description only (`result.severity` is always
truthy, so the guard on it always passes). -/
def openaiSeverityField (t : List Char) : Severity :=
  match openaiSeverityDescMatch t with
  | some cap =>
    if cap.isEmpty then openaiSeverityLevelPart t
    else ⟨(openaiSeverityLevelPart t).level, String.mk (jsTrim cap)⟩
  | none => openaiSeverityLevelPart t

/-- OpenAI `extractStructuredDataFromText`. -/
def extractStructuredDataFromTextOpenAI (text : String) : AIAssessmentResult :=
  ⟨some (openaiAssessmentField text.data),
   some (openaiStepsField text.data),
   some (openaiWarningsField text.data),
   some (openaiSeverityField text.data)⟩

/-- The three allowed severity levels (ai-service.ts line 11). -/
def allowedLevels : List String := ["minor", "requires_attention", "emergency"]

/-- The concrete input of the spec's extractor test vector (§8). -/
def specExtractorInput : String :=
  "assessment: Minor cut.\nsteps: 1. Clean it. 2. Bandage it.\nwarnings: 1. Watch for infection."

/-- The medical history of the spec's test vector (§8): allergies
`["penicillin"]`, empty medications and conditions, blood type `"O+"`,
no notes. -/
def specMedicalHistory : MedicalHistory :=
  ⟨some ["penicillin"], some [], some [], some "O+", none⟩

end MedAssist

/-! # Theorems -/

namespace MedAssist

/-! ## Helper lemmas -/

theorem strAppend_data (a b : String) : (a ++ b).data = a.data ++ b.data := by
  cases a
  cases b
  rfl

/-- A provider chosen by the primary block is either credentialed or
explicitly named by the (lowercased) preference. -/
theorem primaryChoice_mem (cfg : EnvConfig) (pa : Option String) (p : Provider)
    (h : primaryChoice cfg pa = some p) :
    cfg.keyFor p = true ∨ pa = some (providerName p) := by
  unfold primaryChoice at h
  split_ifs at h with h1 h2 h3 h4
  · cases h
    exact Or.inl (by simpa using (Bool.and_eq_true _ _ ▸ h1).1)
  · cases h
    rcases Bool.or_eq_true _ _ ▸ h2 with hl | hr
    · exact Or.inr (by simpa [providerName] using hl)
    · exact Or.inl (by simpa [EnvConfig.keyFor] using (Bool.and_eq_true _ _ ▸ hr).2)
  · cases h
    rcases Bool.or_eq_true _ _ ▸ h3 with hl | hr
    · exact Or.inr (by simpa [providerName] using hl)
    · exact Or.inl (by simpa [EnvConfig.keyFor] using (Bool.and_eq_true _ _ ▸ hr).2)
  · cases h
    exact Or.inl (by simpa [EnvConfig.keyFor] using h4)

/-- A provider chosen by the first fallback block is credentialed. -/
theorem fallback1Choice_mem (cfg : EnvConfig) (pa : Option String) (p : Provider)
    (h : fallback1Choice cfg pa = some p) : cfg.keyFor p = true := by
  unfold fallback1Choice at h
  split_ifs at h with h1 h2 h3
  · cases h
    exact by simpa [EnvConfig.keyFor] using (Bool.and_eq_true _ _ ▸ h1).2
  · cases h
    exact by simpa [EnvConfig.keyFor] using (Bool.and_eq_true _ _ ▸ h2).2
  · cases h
    exact by simpa [EnvConfig.keyFor] using (Bool.and_eq_true _ _ ▸ h3).2

/-- A provider chosen by the second fallback block is credentialed. -/
theorem fallback2Choice_mem (cfg : EnvConfig) (pa : Option String) (p : Provider)
    (h : fallback2Choice cfg pa = some p) : cfg.keyFor p = true := by
  unfold fallback2Choice at h
  split_ifs at h with h1 h2 h3
  · cases h
    exact by simpa [EnvConfig.keyFor] using (Bool.and_eq_true _ _ ▸ h1).2
  · cases h
    exact by simpa [EnvConfig.keyFor] using (Bool.and_eq_true _ _ ▸ h2).2
  · cases h
    exact by simpa [EnvConfig.keyFor] using (Bool.and_eq_true _ _ ▸ h3).2

/-- Every adapter call made by one orchestrator run carries the original
inputs, an absent medical history, and a provider that is either
credentialed or explicitly named by the preference. -/
theorem unified_calls_spec (cfg : EnvConfig) (images : List String) (txt : String)
    (audio : Option String) (oracle : Nat → Provider → Except String AIAssessmentResult) :
    ∀ c ∈ (generateFirstAidGuidanceUnified cfg images txt audio oracle).calls,
      c.medicalHistory = none ∧
      (cfg.keyFor c.provider = true ∨ prefOf cfg = some (providerName c.provider)) := by
  intro c hc
  unfold generateFirstAidGuidanceUnified at hc
  simp only [] at hc
  split at hc
  · simp at hc
  · next p0 hp =>
    have hp0 := primaryChoice_mem cfg (prefOf cfg) p0 hp
    split at hc
    · simp at hc
      subst hc
      exact ⟨rfl, hp0⟩
    · split at hc
      · next p1 hf1 =>
        have hp1 : cfg.keyFor p1 = true ∨ prefOf cfg = some (providerName p1) :=
          Or.inl (fallback1Choice_mem cfg (prefOf cfg) p1 hf1)
        split at hc
        · simp at hc
          rcases hc with rfl | rfl
          · exact ⟨rfl, hp0⟩
          · exact ⟨rfl, hp1⟩
        · split at hc
          · next p2 hf2 =>
            have hp2 : cfg.keyFor p2 = true ∨ prefOf cfg = some (providerName p2) :=
              Or.inl (fallback2Choice_mem cfg (prefOf cfg) p2 hf2)
            split at hc
            · simp at hc
              rcases hc with rfl | rfl | rfl
              · exact ⟨rfl, hp0⟩
              · exact ⟨rfl, hp1⟩
              · exact ⟨rfl, hp2⟩
            · simp at hc
              rcases hc with rfl | rfl | rfl
              · exact ⟨rfl, hp0⟩
              · exact ⟨rfl, hp1⟩
              · exact ⟨rfl, hp2⟩
          · simp at hc
            rcases hc with rfl | rfl
            · exact ⟨rfl, hp0⟩
            · exact ⟨rfl, hp1⟩
      · split at hc
        · next p2 hf2 =>
          have hp2 : cfg.keyFor p2 = true ∨ prefOf cfg = some (providerName p2) :=
            Or.inl (fallback2Choice_mem cfg (prefOf cfg) p2 hf2)
          split at hc
          · simp at hc
            rcases hc with rfl | rfl
            · exact ⟨rfl, hp0⟩
            · exact ⟨rfl, hp2⟩
          · simp at hc
            rcases hc with rfl | rfl
            · exact ⟨rfl, hp0⟩
            · exact ⟨rfl, hp2⟩
        · simp at hc
          subst hc
          exact ⟨rfl, hp0⟩

/-- One orchestrator run either resolves, or rejects with the
no-credentials message having made no call, or rejects with the aggregate
message. -/
theorem unified_result_cases (cfg : EnvConfig) (images : List String) (txt : String)
    (audio : Option String) (oracle : Nat → Provider → Except String AIAssessmentResult) :
    (∃ r, (generateFirstAidGuidanceUnified cfg images txt audio oracle).result = .ok r) ∨
    ((generateFirstAidGuidanceUnified cfg images txt audio oracle).calls = [] ∧
      (generateFirstAidGuidanceUnified cfg images txt audio oracle).result = .error noServiceMessage) ∨
    (generateFirstAidGuidanceUnified cfg images txt audio oracle).result = .error allUnavailableMessage := by
  unfold generateFirstAidGuidanceUnified
  simp only []
  split
  · exact Or.inr (Or.inl ⟨rfl, rfl⟩)
  · split
    · exact Or.inl ⟨_, rfl⟩
    · split
      · split
        · exact Or.inl ⟨_, rfl⟩
        · split
          · split
            · exact Or.inl ⟨_, rfl⟩
            · exact Or.inr (Or.inr rfl)
          · exact Or.inr (Or.inr rfl)
      · split
        · split
          · exact Or.inl ⟨_, rfl⟩
          · exact Or.inr (Or.inr rfl)
        · exact Or.inr (Or.inr rfl)

/-! ## Claims C1-C4: the orchestrator -/

/-- Claim C1, counterexample.  With no preferred provider set and all
three credentials configured, when every attempt fails the orchestrator
attempts Gemini, then Gemini a second time (after it has already been
tried and failed), then OpenAI — not Gemini → DeepSeek → OpenAI, and not
without repetition: Gemini is attempted twice and DeepSeek never. -/
theorem C1_counterexample :
    attemptsOf (generateFirstAidGuidanceUnified ⟨true, true, true, none⟩ []
      "chest pain" none (failOracle "network error")) = [.gemini, .gemini, .openai] ∧
    (attemptsOf (generateFirstAidGuidanceUnified ⟨true, true, true, none⟩ []
      "chest pain" none (failOracle "network error"))).count .gemini = 2 ∧
    Provider.deepseek ∉ attemptsOf (generateFirstAidGuidanceUnified ⟨true, true, true, none⟩ []
      "chest pain" none (failOracle "network error")) := by
  refine ⟨by decide, by decide, by decide⟩

/-- Claim C1 (amended): with `PREFERRED_AI_API` unset and every attempt
failing, the attempt order is exactly `defaultOrderTrace`: the first
configured provider in Gemini → DeepSeek → OpenAI order, that same
provider again (the fallback blocks exclude only the named preference,
which is unset), then the first configured provider in OpenAI → DeepSeek
→ Gemini order; the same provider can thus be attempted up to three
times, and DeepSeek is skipped whenever Gemini or OpenAI is also
configured. -/
theorem C1_default_order_actual (g d o : Bool) (images : List String) (txt : String)
    (audio : Option String) (errs : Nat → Provider → String) :
    attemptsOf (generateFirstAidGuidanceUnified ⟨g, d, o, none⟩ images txt audio
      (fun n p => .error (errs n p))) = defaultOrderTrace g d o := by
  cases g <;> cases d <;> cases o <;> rfl

/-- Claim C2 (code bug): a provider JSON response that omits `steps` and
`warnings` flows through the OpenAI adapter's unchecked
`JSON.parse(…) as AIAssessmentResult` cast, and the orchestrator resolves
with those fields absent — contradicting both the declared
`AIAssessmentResult` interface and the spec's invariant that adapters
default missing fields. -/
theorem C2_openai_json_missing_fields :
    (generateFirstAidGuidanceUnified ⟨false, false, true, some "openai"⟩ []
      "a small cut" none
      (fun _ _ => .ok (openaiParseJsonResponse ⟨some "ok", none, none, none⟩))).result =
      .ok ⟨some "ok", none, none, none⟩ ∧
    (openaiParseJsonResponse ⟨some "ok", none, none, none⟩).steps = none ∧
    (openaiParseJsonResponse ⟨some "ok", none, none, none⟩).warnings = none ∧
    (geminiParseJsonResponse ⟨some "ok", none, none, none⟩).steps = some [] ∧
    (deepseekParseJsonResponse ⟨some "ok", none, none, none⟩).warnings = some [] := by
  refine ⟨by decide, rfl, rfl, rfl, rfl⟩

/-- Claim C3, counterexample.  With *no* credential configured but
`PREFERRED_AI_API=deepseek`, the orchestrator does invoke the DeepSeek
adapter (its primary branch tests only the preference, not the
credential) and then rejects with the aggregate message — not with the
distinct "no AI service" error and not without attempting a provider
call. -/
theorem C3_counterexample :
    attemptsOf (generateFirstAidGuidanceUnified ⟨false, false, false, some "deepseek"⟩ []
      "snake bite" none (failOracle "ECONNREFUSED")) = [.deepseek] ∧
    (generateFirstAidGuidanceUnified ⟨false, false, false, some "deepseek"⟩ []
      "snake bite" none (failOracle "ECONNREFUSED")).result = .error allUnavailableMessage ∧
    allUnavailableMessage ≠ noServiceMessage := by
  refine ⟨by decide, by decide, by decide⟩

/-- Claim C3 (amended): when no credential is configured and the
lowercased preference is neither `"deepseek"` nor `"openai"` (in
particular when it is unset), the orchestrator rejects immediately with
the distinct "No AI service is available" error and makes no adapter
call; and in every run, each attempted provider either has its credential
configured or is the provider explicitly named by the preference (the
preferred `"deepseek"`/`"openai"` primary branches skip the credential
check). -/
theorem C3_no_credentials_guarded :
    (∀ (pref : Option String) (images : List String) (txt : String) (audio : Option String)
       (oracle : Nat → Provider → Except String AIAssessmentResult),
       prefOf ⟨false, false, false, pref⟩ ≠ some "deepseek" →
       prefOf ⟨false, false, false, pref⟩ ≠ some "openai" →
       generateFirstAidGuidanceUnified ⟨false, false, false, pref⟩ images txt audio oracle =
         ⟨[], .error noServiceMessage⟩) ∧
    (∀ (cfg : EnvConfig) (images : List String) (txt : String) (audio : Option String)
       (oracle : Nat → Provider → Except String AIAssessmentResult) (p : Provider),
       p ∈ attemptsOf (generateFirstAidGuidanceUnified cfg images txt audio oracle) →
       cfg.keyFor p = true ∨ prefOf cfg = some (providerName p)) := by
  constructor
  · intro pref images txt audio oracle hd ho
    have hchoice : primaryChoice ⟨false, false, false, pref⟩
        (prefOf ⟨false, false, false, pref⟩) = none := by
      unfold primaryChoice
      simp [hd, ho]
    unfold generateFirstAidGuidanceUnified
    simp only []
    rw [hchoice]
  · intro cfg images txt audio oracle p hp
    unfold attemptsOf at hp
    simp only [List.mem_map] at hp
    obtain ⟨c, hc, rfl⟩ := hp
    exact (unified_calls_spec cfg images txt audio oracle c hc).2

/-- Claim C3, witness for the amended theorem at a concrete instance. -/
theorem C3_witness :
    generateFirstAidGuidanceUnified ⟨false, false, false, none⟩ [] "burn" none
      (failOracle "boom") = ⟨[], .error noServiceMessage⟩ ∧
    (EnvConfig.keyFor ⟨true, true, true, none⟩ .gemini = true ∨
      prefOf ⟨true, true, true, none⟩ = some (providerName .gemini)) :=
  ⟨C3_no_credentials_guarded.1 none [] "burn" none (failOracle "boom")
      (by decide) (by decide),
   C3_no_credentials_guarded.2 ⟨true, true, true, none⟩ [] "x" none (failOracle "boom")
      .gemini (by decide)⟩

/-- Claim C4: whenever a run that made at least one adapter call rejects,
the rejection message is exactly the constant aggregate message — a fixed
literal independent of every provider error, so no provider's raw error
text can appear in it — and it contains "unavailable". -/
theorem C4_aggregate_error (cfg : EnvConfig) (images : List String) (txt : String)
    (audio : Option String) (oracle : Nat → Provider → Except String AIAssessmentResult)
    (e : String)
    (he : (generateFirstAidGuidanceUnified cfg images txt audio oracle).result = .error e)
    (hcalls : (generateFirstAidGuidanceUnified cfg images txt audio oracle).calls ≠ []) :
    e = allUnavailableMessage ∧ containsSub e "unavailable" = true := by
  rcases unified_result_cases cfg images txt audio oracle with ⟨r, hr⟩ | ⟨hnil, _⟩ | hres
  · rw [hr] at he
    exact absurd he (by simp)
  · exact absurd hnil hcalls
  · rw [hres] at he
    injection he with he2
    subst he2
    exact ⟨rfl, by decide⟩

/-- Claim C4, witness at a concrete failing configuration. -/
theorem C4_witness :
    allUnavailableMessage = allUnavailableMessage ∧
    containsSub allUnavailableMessage "unavailable" = true :=
  C4_aggregate_error ⟨true, false, false, none⟩ [] "cut" none (failOracle "quota")
    allUnavailableMessage (by decide) (by decide)

/-! ## Claims C5-C8: the text extractors and severity handling -/

/-- Claim C5, counterexample.  On input with no recognisable label the
*Gemini* fallback extractor (one of the two extractors the claim cites)
returns an *empty* assessment and an *empty* warnings list — not a
non-empty generic fallback assessment and not a non-empty warnings
list. -/
theorem C5_counterexample :
    (extractStructuredDataFromTextGemini "The patient seems fine").assessment = some "" ∧
    (extractStructuredDataFromTextGemini "The patient seems fine").warnings = some [] ∧
    (extractStructuredDataFromTextGemini "The patient seems fine").steps = some [] := by
  refine ⟨by decide, by decide, by decide⟩

/-- Claim C5 (amended): all three extractors are total functions (they
never throw).  On input where none of an extractor's label patterns
matches, the *OpenAI* extractor returns the claimed generic fallback
(non-empty assessment, empty steps, a non-empty generic warning, default
severity), while the *Gemini* and *DeepSeek* extractors return an empty
assessment, empty steps and empty warnings (DeepSeek keeps its default
severity; Gemini's result carries no severity at all). -/
theorem C5_extractors_on_unlabeled (s : String) :
    (openaiAssessmentMatch s.data = none → openaiStepsMatch s.data = none →
     openaiWarningsMatch s.data = none → openaiSeverityMatch s.data = none →
     openaiSeverityDescMatch s.data = none →
     extractStructuredDataFromTextOpenAI s =
       ⟨some openaiDefaultAssessment, some [], some openaiDefaultWarnings,
        some openaiDefaultSeverity⟩) ∧
    (geminiAssessmentMatch s.data = none → geminiStepsMatch s.data = none →
     geminiWarningsMatch s.data = none →
     extractStructuredDataFromTextGemini s = ⟨some "", some [], some [], none⟩) ∧
    (deepseekAssessmentMatch s.data = none → deepseekStepsMatch s.data = none →
     deepseekWarningsMatch s.data = none → deepseekLevelMatch s.data = none →
     deepseekDescMatch s.data = none →
     extractStructuredDataFromTextDeepSeek s =
       ⟨some "", some [], some [], some deepseekDefaultSeverity⟩) := by
  refine ⟨?_, ?_, ?_⟩
  · intro h1 h2 h3 h4 h5
    simp [extractStructuredDataFromTextOpenAI, openaiAssessmentField, openaiStepsField,
      openaiWarningsField, openaiSeverityField, openaiSeverityLevelPart, h1, h2, h3, h4, h5]
  · intro h1 h2 h3
    simp [extractStructuredDataFromTextGemini, geminiAssessmentField, geminiStepsField,
      geminiWarningsField, h1, h2, h3]
  · intro h1 h2 h3 h4 h5
    simp [extractStructuredDataFromTextDeepSeek, deepseekAssessmentField, deepseekStepsField,
      deepseekWarningsField, deepseekSeverityField, deepseekSeverityLevelPart, h1, h2, h3, h4, h5]

/-- Claim C5, witness for the amended theorem at the label-free input
`"hello"`. -/
theorem C5_witness :
    extractStructuredDataFromTextOpenAI "hello" =
      ⟨some openaiDefaultAssessment, some [], some openaiDefaultWarnings,
       some openaiDefaultSeverity⟩ ∧
    extractStructuredDataFromTextGemini "hello" = ⟨some "", some [], some [], none⟩ ∧
    extractStructuredDataFromTextDeepSeek "hello" =
      ⟨some "", some [], some [], some deepseekDefaultSeverity⟩ :=
  ⟨(C5_extractors_on_unlabeled "hello").1 (by decide) (by decide) (by decide)
     (by decide) (by decide),
   (C5_extractors_on_unlabeled "hello").2.1 (by decide) (by decide) (by decide),
   (C5_extractors_on_unlabeled "hello").2.2 (by decide) (by decide) (by decide)
     (by decide) (by decide)⟩

/-- Claim C6, counterexample.  On the spec's test vector neither cited
extractor returns `steps = ["Clean it.", "Bandage it."]`, and the Gemini
extractor does not even recover the assessment: its `(.*?)`-based
section regexes cannot cross the newline that separates each label from
the next, so its assessment and steps matches fail. -/
theorem C6_counterexample :
    (extractStructuredDataFromTextGemini specExtractorInput).steps ≠
      some ["Clean it.", "Bandage it."] ∧
    (extractStructuredDataFromTextOpenAI specExtractorInput).steps ≠
      some ["Clean it.", "Bandage it."] ∧
    (extractStructuredDataFromTextGemini specExtractorInput).assessment ≠
      some "Minor cut." := by
  refine ⟨by decide, by decide, by decide⟩

/-- Claim C6 (amended): on
`"assessment: Minor cut.\nsteps: 1. Clean it. 2. Bandage it.\nwarnings: 1. Watch for infection."`
the OpenAI extractor returns `assessment = "Minor cut."`,
`steps = ["Clean it. 2. Bandage it."]` (its split is on newlines, not on
numbered markers, so the two numbered steps stay one line) and
`warnings = ["Watch for infection."]`; the Gemini and DeepSeek extractors
return an empty assessment and no steps (their section regexes cannot
reach the label that follows a newline) and the same single warning. -/
theorem C6_actual_outputs :
    extractStructuredDataFromTextOpenAI specExtractorInput =
      ⟨some "Minor cut.", some ["Clean it. 2. Bandage it."],
       some ["Watch for infection."], some openaiDefaultSeverity⟩ ∧
    extractStructuredDataFromTextGemini specExtractorInput =
      ⟨some "", some [], some ["Watch for infection."], none⟩ ∧
    extractStructuredDataFromTextDeepSeek specExtractorInput =
      ⟨some "", some [], some ["Watch for infection."], some deepseekDefaultSeverity⟩ := by
  refine ⟨by decide, by decide, by decide⟩

/-- The dedicated Gemini unavailability message differs from every
generic Gemini wrap, whatever the wrapped text (their first characters
differ). -/
theorem gemini_unavail_ne_generic (m : String) :
    geminiUnavailableMessage ≠ "Failed to generate first aid guidance: " ++ m := by
  intro h
  cases m with
  | mk lm =>
    have h2 : geminiUnavailableMessage.data.head? =
        (("Failed to generate first aid guidance: " : String) ++ String.mk lm).data.head? := by
      rw [h]
    exact absurd (show (some 'G' : Option Char) = some 'F' from h2) (by decide)

/-- Same for DeepSeek. -/
theorem deepseek_unavail_ne_generic (m : String) :
    deepseekUnavailableMessage ≠ "Failed to generate first aid guidance: " ++ m := by
  intro h
  cases m with
  | mk lm =>
    have h2 : deepseekUnavailableMessage.data.head? =
        (("Failed to generate first aid guidance: " : String) ++ String.mk lm).data.head? := by
      rw [h]
    exact absurd (show (some 'D' : Option Char) = some 'F' from h2) (by decide)

/-- Claim C7, counterexample.  The OpenAI adapter has no dedicated
service-unavailable error: an HTTP 401 failure is wrapped exactly like
any other failure, and the resulting message does not contain "service
unavailable". -/
theorem C7_counterexample :
    openaiCatch ⟨some "Request failed with status code 401", some 401⟩ =
      "OpenAI Service Error: Request failed with status code 401" ∧
    containsSub (openaiCatch ⟨some "Request failed with status code 401", some 401⟩)
      "service unavailable" = false ∧
    openaiCatch ⟨some "Request failed with status code 401", some 401⟩ ≠
      geminiUnavailableMessage := by
  refine ⟨by decide, by decide, by decide⟩

/-- Claim C7 (amended): the Gemini and DeepSeek adapters throw the
dedicated "...API service unavailable..." error exactly on HTTP 401/429
and the generic "Failed to generate first aid guidance: <message>" wrap
otherwise; the dedicated messages contain "service unavailable" and can
never coincide with any generic wrap (so the two kinds are
distinguishable), but — unlike the claim — the generic wrap carries no
provider name, and the OpenAI adapter wraps every failure identically
("OpenAI Service Error: <message>"), ignoring the status entirely. -/
theorem C7_amended :
    (∀ (e : JsError), e.status = some 401 ∨ e.status = some 429 →
       geminiCatch e = geminiUnavailableMessage ∧
       deepseekCatch e = deepseekUnavailableMessage) ∧
    (∀ (e : JsError), e.status ≠ some 401 → e.status ≠ some 429 →
       geminiCatch e = "Failed to generate first aid guidance: " ++ jsOrStr e.message "Unknown error" ∧
       deepseekCatch e = "Failed to generate first aid guidance: " ++ jsOrStr e.message "Unknown error") ∧
    (∀ (m : String),
       geminiUnavailableMessage ≠ "Failed to generate first aid guidance: " ++ m ∧
       deepseekUnavailableMessage ≠ "Failed to generate first aid guidance: " ++ m) ∧
    containsSub geminiUnavailableMessage "service unavailable" = true ∧
    containsSub deepseekUnavailableMessage "service unavailable" = true ∧
    (∀ (msg : Option String) (s1 s2 : Option Nat),
       openaiCatch ⟨msg, s1⟩ = openaiCatch ⟨msg, s2⟩) := by
  refine ⟨?_, ?_, ?_, by decide, by decide, ?_⟩
  · intro e h
    have hcond : (e.status == some 429 || e.status == some 401) = true := by
      rcases h with h | h <;> rw [h] <;> decide
    constructor
    · simp [geminiCatch, hcond]
    · simp [deepseekCatch, hcond]
  · intro e h1 h2
    have hcond : (e.status == some 429 || e.status == some 401) = false := by
      rw [Bool.or_eq_false_iff]
      exact ⟨beq_eq_false_iff_ne.mpr h2, beq_eq_false_iff_ne.mpr h1⟩
    constructor
    · simp [geminiCatch, hcond]
    · simp [deepseekCatch, hcond]
  · intro m
    exact ⟨gemini_unavail_ne_generic m, deepseek_unavail_ne_generic m⟩
  · intro msg s1 s2
    rfl

/-- Claim C7, witness for the amended theorem at concrete errors. -/
theorem C7_witness :
    geminiCatch ⟨some "x", some 401⟩ = geminiUnavailableMessage ∧
    deepseekCatch ⟨some "x", some 429⟩ = deepseekUnavailableMessage ∧
    geminiCatch ⟨some "boom", none⟩ =
      "Failed to generate first aid guidance: " ++ jsOrStr (some "boom") "Unknown error" ∧
    geminiUnavailableMessage ≠ "Failed to generate first aid guidance: x" :=
  ⟨(C7_amended.1 ⟨some "x", some 401⟩ (Or.inl rfl)).1,
   (C7_amended.1 ⟨some "x", some 429⟩ (Or.inr rfl)).2,
   (C7_amended.2.1 ⟨some "boom", none⟩ (by decide) (by decide)).1,
   fun h => (C7_amended.2.2.1 "x").1 (h.trans (by decide))⟩

/-- The level produced by the OpenAI severity branch is always one of the
three allowed values. -/
theorem openai_level_allowed (t : List Char) :
    allowedLevels.contains (openaiSeverityLevelPart t).level = true := by
  unfold openaiSeverityLevelPart
  cases h : openaiSeverityMatch t with
  | none => decide
  | some cap =>
    simp only []
    split_ifs <;> decide

/-- The level survives the description pass: the OpenAI severity field's
level is always allowed. -/
theorem openai_field_level_allowed (t : List Char) :
    allowedLevels.contains (openaiSeverityField t).level = true := by
  unfold openaiSeverityField
  cases openaiSeverityDescMatch t with
  | none => exact openai_level_allowed t
  | some cap =>
    simp only []
    split_ifs
    · exact openai_level_allowed t
    · exact openai_level_allowed t

/-- The level produced by the DeepSeek severity branch is always one of
the three allowed values. -/
theorem deepseek_level_allowed (t : List Char) :
    allowedLevels.contains (deepseekSeverityLevelPart t).level = true := by
  unfold deepseekSeverityLevelPart
  cases h : deepseekLevelMatch t with
  | none => decide
  | some cap =>
    simp only []
    split_ifs <;> decide

/-- The DeepSeek severity field's level is always allowed. -/
theorem deepseek_field_level_allowed (t : List Char) :
    allowedLevels.contains (deepseekSeverityField t).level = true := by
  unfold deepseekSeverityField
  cases deepseekDescMatch t with
  | none => exact deepseek_level_allowed t
  | some cap =>
    simp only []
    split_ifs
    · exact deepseek_level_allowed t
    · exact deepseek_level_allowed t

/-- Claim C8, counterexample.  The first half of the claim ("whenever a
result carries a severity, its level is exactly one of minor,
requires_attention, emergency") fails on the adapters' JSON paths: a
provider-supplied severity object is passed through unvalidated by the
DeepSeek JSON path (`parsedResponse.severity || default`) and by the
OpenAI cast, so a resolved result can carry an arbitrary level. -/
theorem C8_counterexample :
    (deepseekParseJsonResponse ⟨some "a", some ["s"], some ["w"],
        some ⟨"catastrophic", "because"⟩⟩).severity = some ⟨"catastrophic", "because"⟩ ∧
    (openaiParseJsonResponse ⟨some "a", some ["s"], some ["w"],
        some ⟨"catastrophic", "because"⟩⟩).severity = some ⟨"catastrophic", "because"⟩ ∧
    allowedLevels.contains "catastrophic" = false := by
  refine ⟨rfl, rfl, by decide⟩

/-- The description pass never changes the severity level: the OpenAI
severity field's level is the branch result's level. -/
theorem openai_field_level_of_part (t : List Char) :
    (openaiSeverityField t).level = (openaiSeverityLevelPart t).level := by
  unfold openaiSeverityField
  cases openaiSeverityDescMatch t with
  | none => rfl
  | some cap =>
    simp only []
    split_ifs <;> rfl

/-- Same for DeepSeek. -/
theorem deepseek_field_level_of_part (t : List Char) :
    (deepseekSeverityField t).level = (deepseekSeverityLevelPart t).level := by
  unfold deepseekSeverityField
  cases deepseekDescMatch t with
  | none => rfl
  | some cap =>
    simp only []
    split_ifs <;> rfl

/-- Matched severity text that contains none of OpenAI's recognised
substrings falls through every branch and keeps the full default
severity object. -/
theorem openai_unrecognized_default (t cap : List Char)
    (hm : openaiSeverityMatch t = some cap) (hne : cap.isEmpty = false)
    (h1 : containsL (jsTrim (toLowerL cap)) "minor".data = false)
    (h2 : containsL (jsTrim (toLowerL cap)) "requires_attention".data = false)
    (h3 : containsL (jsTrim (toLowerL cap)) "requires attention".data = false)
    (h4 : containsL (jsTrim (toLowerL cap)) "medical attention".data = false)
    (h5 : containsL (jsTrim (toLowerL cap)) "emergency".data = false) :
    openaiSeverityLevelPart t = openaiDefaultSeverity := by
  unfold openaiSeverityLevelPart
  rw [hm]
  simp [hne, h1, h2, h3, h4, h5]

/-- Matched severity text that contains none of DeepSeek's recognised
substrings keeps the full default severity object. -/
theorem deepseek_unrecognized_default (t cap : List Char)
    (hm : deepseekLevelMatch t = some cap) (hne : cap.isEmpty = false)
    (h1 : containsL (jsTrim (toLowerL cap)) "minor".data = false)
    (h2 : containsL (jsTrim (toLowerL cap)) "requires_attention".data = false)
    (h3 : containsL (jsTrim (toLowerL cap)) "requires attention".data = false)
    (h4 : containsL (jsTrim (toLowerL cap)) "attention".data = false)
    (h5 : containsL (jsTrim (toLowerL cap)) "emergency".data = false) :
    deepseekSeverityLevelPart t = deepseekDefaultSeverity := by
  unfold deepseekSeverityLevelPart
  rw [hm]
  simp [hne, h1, h2, h3, h4, h5]

/-- Claim C8 (amended): every severity produced by the *fallback
extractors* carries one of the three allowed levels; the Gemini extractor
produces no severity; missing severity labels leave the full
`requires_attention` default with its explanatory description; and
matched severity text containing none of the recognised substrings falls
through every branch, keeping the default severity object, so the
resulting level is `requires_attention` (the conservative default) even
after the description pass.  (The adapters' JSON paths, by contrast,
pass a provider-supplied severity through unvalidated — see the
counterexample.) -/
theorem C8_severity_invariant (s : String) :
    allowedLevels.contains (openaiSeverityField s.data).level = true ∧
    allowedLevels.contains (deepseekSeverityField s.data).level = true ∧
    (extractStructuredDataFromTextGemini s).severity = none ∧
    (openaiSeverityMatch s.data = none → openaiSeverityDescMatch s.data = none →
      openaiSeverityField s.data = openaiDefaultSeverity) ∧
    (deepseekLevelMatch s.data = none → deepseekDescMatch s.data = none →
      deepseekSeverityField s.data = deepseekDefaultSeverity) ∧
    (∀ cap : List Char, openaiSeverityMatch s.data = some cap → cap.isEmpty = false →
      containsL (jsTrim (toLowerL cap)) "minor".data = false →
      containsL (jsTrim (toLowerL cap)) "requires_attention".data = false →
      containsL (jsTrim (toLowerL cap)) "requires attention".data = false →
      containsL (jsTrim (toLowerL cap)) "medical attention".data = false →
      containsL (jsTrim (toLowerL cap)) "emergency".data = false →
      openaiSeverityLevelPart s.data = openaiDefaultSeverity ∧
      (openaiSeverityField s.data).level = "requires_attention") ∧
    (∀ cap : List Char, deepseekLevelMatch s.data = some cap → cap.isEmpty = false →
      containsL (jsTrim (toLowerL cap)) "minor".data = false →
      containsL (jsTrim (toLowerL cap)) "requires_attention".data = false →
      containsL (jsTrim (toLowerL cap)) "requires attention".data = false →
      containsL (jsTrim (toLowerL cap)) "attention".data = false →
      containsL (jsTrim (toLowerL cap)) "emergency".data = false →
      deepseekSeverityLevelPart s.data = deepseekDefaultSeverity ∧
      (deepseekSeverityField s.data).level = "requires_attention") := by
  refine ⟨openai_field_level_allowed s.data, deepseek_field_level_allowed s.data, rfl,
    ?_, ?_, ?_, ?_⟩
  · intro h1 h2
    simp [openaiSeverityField, openaiSeverityLevelPart, h1, h2]
  · intro h1 h2
    simp [deepseekSeverityField, deepseekSeverityLevelPart, h1, h2]
  · intro cap hm hne h1 h2 h3 h4 h5
    have hpart := openai_unrecognized_default s.data cap hm hne h1 h2 h3 h4 h5
    refine ⟨hpart, ?_⟩
    rw [openai_field_level_of_part, hpart]
    rfl
  · intro cap hm hne h1 h2 h3 h4 h5
    have hpart := deepseek_unrecognized_default s.data cap hm hne h1 h2 h3 h4 h5
    refine ⟨hpart, ?_⟩
    rw [deepseek_field_level_of_part, hpart]
    rfl

/-- Claim C8, witness for the amended theorem: the missing-label
conjuncts at `"hello there"` (no severity section at all) and the
unrecognised-text conjuncts at `"severity: weird-zzz"` (OpenAI matcher
captures `weird-zzz`) and `"severity: level: weird-zzz"` (DeepSeek
matcher captures `weird-zzz`), with every hypothesis discharged by
evaluation. -/
theorem C8_witness :
    allowedLevels.contains (openaiSeverityField "hello there".data).level = true ∧
    allowedLevels.contains (deepseekSeverityField "hello there".data).level = true ∧
    (extractStructuredDataFromTextGemini "hello there").severity = none ∧
    openaiSeverityField "hello there".data = openaiDefaultSeverity ∧
    deepseekSeverityField "hello there".data = deepseekDefaultSeverity ∧
    (openaiSeverityLevelPart "severity: weird-zzz".data = openaiDefaultSeverity ∧
      (openaiSeverityField "severity: weird-zzz".data).level = "requires_attention") ∧
    (deepseekSeverityLevelPart "severity: level: weird-zzz".data = deepseekDefaultSeverity ∧
      (deepseekSeverityField "severity: level: weird-zzz".data).level = "requires_attention") :=
  ⟨(C8_severity_invariant "hello there").1,
   (C8_severity_invariant "hello there").2.1,
   (C8_severity_invariant "hello there").2.2.1,
   (C8_severity_invariant "hello there").2.2.2.1 (by decide) (by decide),
   (C8_severity_invariant "hello there").2.2.2.2.1 (by decide) (by decide),
   (C8_severity_invariant "severity: weird-zzz").2.2.2.2.2.1 "weird-zzz".data
     (by decide) (by decide) (by decide) (by decide) (by decide) (by decide) (by decide),
   (C8_severity_invariant "severity: level: weird-zzz").2.2.2.2.2.2 "weird-zzz".data
     (by decide) (by decide) (by decide) (by decide) (by decide) (by decide) (by decide)⟩

/-! ## Claims C9-C10: medical history and transcription resilience -/

set_option maxRecDepth 10000 in
/-- Claim C9, counterexample.  `generateFirstAidGuidanceUnified` has no
medicalHistory parameter: every adapter call it makes carries
`medicalHistory = undefined`, so no provider request composed during an
orchestrated run can contain the history — concretely, the OpenAI content
for such a call (history absent) has no item mentioning "penicillin". -/
theorem C9_counterexample :
    ((generateFirstAidGuidanceUnified ⟨true, true, true, none⟩ [] "bleeding" none
      (failOracle "boom")).calls.map (fun c => c.medicalHistory)) = [none, none, none] ∧
    ((openaiBuildContent [] "bleeding" none false none (Except.ok "")).map
      ContentItem.textOf).all (fun s => !(containsSub s "penicillin")) = true := by
  refine ⟨by decide, by decide⟩

set_option maxRecDepth 10000 in
/-- Claim C9 (amended): the orchestrator itself accepts no medical
history and always invokes the adapters without one; the *OpenAI adapter*
does accept an optional medical history, and for the spec's history
(allergies `["penicillin"]`, empty medications, empty conditions, blood
type `"O+"`, no notes) its rendered context text contains the literal
"penicillin" and the explicit phrase "No current medications" rather than
an empty string, and the composed content carries that block. -/
theorem C9_amended :
    (∀ (cfg : EnvConfig) (images : List String) (txt : String) (audio : Option String)
       (oracle : Nat → Provider → Except String AIAssessmentResult),
       ((generateFirstAidGuidanceUnified cfg images txt audio oracle).calls.all
         (fun c => c.medicalHistory == none)) = true) ∧
    containsSub (medicalHistoryContextText specMedicalHistory) "penicillin" = true ∧
    containsSub (medicalHistoryContextText specMedicalHistory) "No current medications" = true ∧
    (openaiBuildContent [] "rash" none false (some specMedicalHistory) (Except.ok "")).contains
      (ContentItem.text (medicalHistoryContextText specMedicalHistory)) = true := by
  refine ⟨?_, by decide, by decide, by decide⟩
  intro cfg images txt audio oracle
  rw [List.all_eq_true]
  intro c hc
  have hmh := (unified_calls_spec cfg images txt audio oracle c hc).1
  simp [hmh]

/-- Claim C10: when the transcription call throws, both the OpenAI and
the DeepSeek adapter substitute the empty string as the transcript and
compose exactly the request they would compose for an empty transcript —
the adapter invocation carries on instead of failing. -/
theorem C10_transcription_fallback (e : String) (images : List ImageInput) (txt : String)
    (audioPath : String) (onDisk : Bool) (mh : Option MedicalHistory) :
    transcribeAudioWithOpenAI (Except.error e) = "" ∧
    transcribeAudioWithDeepSeek (Except.error e) = "" ∧
    openaiBuildContent images txt (some audioPath) onDisk mh (Except.error e) =
      openaiBuildContent images txt (some audioPath) onDisk mh (Except.ok "") ∧
    deepseekBuildMessages images txt (some audioPath) (Except.error e) =
      deepseekBuildMessages images txt (some audioPath) (Except.ok "") :=
  ⟨rfl, rfl, rfl, rfl⟩

end MedAssist
